import Mathlib

/-!
Verification of the siigo-connector authenticated transport layer and
resource helpers, as a shallow embedding of the Python source.

Embedded from the source files:
  * `src/siigo_connector/_http.py`   (`SyncTransport`)
  * `src/siigo_connector/config.py`  (`Config`)
  * `src/siigo_connector/resources/customers.py` (`CustomersResource.list`)
  * `src/siigo_connector/resources/webhooks.py`  (`WebhookResource`)
The token cache (`auth.py`, class `SiigoAuth`) and the error module
(`errors.py`) are not present in the source tree; they are modelled from
the specification (§4.2, §7) and the repository's own tests
(`tests/test_auth.py`, `tests/test_errors.py`), as noted on the
individual definitions.

Modelling conventions:
  * Python dicts of headers are association lists with Python's
    `{**a, **b}` merge semantics (`dictMerge`).
  * The underlying `httpx.Client.request` is a script `Nat → CallResult`
    (call number ↦ raised exception or completed response), mirroring
    how the tests drive the transport with `Mock(side_effect=[...])`.
  * The token endpoint is likewise a script `Nat → TokenEndpointResponse`.
  * Wall-clock time is a `Nat` of epoch seconds, frozen during one call.
  * Machine state that the claims observe (number of HTTP calls, number
    of token fetches, the headers of every issued call) is threaded
    explicitly in `St`.
-/

/-! ## Python dict semantics for header maps -/

/-- Insert `(k, v)` into an association list with Python dict-update
semantics: overwrite in place if `k` is present, else append. -/
def dictInsert (d : List (String × String)) (k v : String) :
    List (String × String) :=
  if d.any (fun p => p.1 == k) then
    d.map (fun p => if p.1 == k then (k, v) else p)
  else d ++ [(k, v)]

/-- Python `{**a, **b}`: start from `a`, fold every pair of `b` in with
`dictInsert`, so `b`'s value wins on any key collision. -/
def dictMerge (a b : List (String × String)) : List (String × String) :=
  b.foldl (fun d p => dictInsert d p.1 p.2) a

/-- Dict lookup: value of the first pair whose key matches. -/
def dictGet? (d : List (String × String)) (k : String) : Option String :=
  (d.find? (fun p => p.1 == k)).map (·.2)

/-! ## Error taxonomy

Modelled from the spec: `errors.py` is not in the source tree.  The spec
(§7) and `tests/test_errors.py` fix a flat hierarchy rooted at the
library's own `YourAPIError` (not at any `httpx` exception class):
`APITimeoutError`, `APIConnectionError`, and `APIResponseError` with
fields `status` and `message`; the configuration failure for missing
credentials is raised by the token cache. -/
inductive ApiError where
  | timeout (msg : String)
  | connection (msg : String)
  | response (status : Nat) (message : String)
  | config (msg : String)
  deriving DecidableEq, Repr

/-- The `httpx` exceptions the transport can see.  In `httpx`,
`ConnectTimeout`, `ConnectError` and `ReadError` are all subclasses of
`httpx.HTTPError`; `otherHTTP` stands for any remaining
`httpx.HTTPError` subclass. -/
inductive HttpxException where
  | connectTimeout (msg : String)
  | connectError (msg : String)
  | readError (msg : String)
  | otherHTTP (msg : String)
  deriving DecidableEq, Repr

/-- An exception propagating out of the decorated `request` body: either
an `httpx` exception (hypothetically — the body converts them all) or
one of the library's own errors. -/
inductive PyExn where
  | httpx (e : HttpxException)
  | api (e : ApiError)
  deriving DecidableEq, Repr

/-- Tenacity's `retry_if_exception_type((httpx.ConnectError,
httpx.ReadError)))` predicate: true exactly on those two `httpx`
classes.  The library's own `ApiError`s are not instances of either. -/
def isConnectOrReadError : PyExn → Bool
  | .httpx (.connectError _) => true
  | .httpx (.readError _) => true
  | _ => false

/-! ## Config (from `config.py`) -/

/-- Embeds the frozen dataclass `Config`.  `timeout` and `user_agent`
are not read by any modelled operation and are omitted. -/
structure Config where
  base_url : String := "https://api.siigo.com"
  username : Option String := none
  access_key : Option String := none
  partner_id : Option String := none
  deriving DecidableEq, Repr

/-! ## Token cache (`SiigoAuth`) -/

/-- Modelled from the spec: `auth.py` is not in the source tree.  The
cache state of `SiigoAuth` per §3/§4.2 and `tests/test_auth.py`:
`_token` starts `None`, `_exp_ts` starts `None`. -/
structure AuthState where
  cfg : Config
  tokenVal : Option String := none
  expTs : Option Nat := none
  deriving DecidableEq, Repr

/-- One response of the provider's token endpoint, as the model sees it:
HTTP status, the optional `access_token` and `expires_in` fields of the
JSON body, and the raw body text. -/
structure TokenEndpointResponse where
  status : Nat
  accessToken : Option String
  expiresIn : Option Nat
  text : String
  deriving DecidableEq, Repr

/-- A completed HTTP response as the transport observes it. -/
structure Response where
  status : Nat
  text : String
  deriving DecidableEq, Repr

/-- One behaviour of the underlying `httpx.Client.request`: raise an
exception, or complete with a response. -/
inductive CallResult where
  | exn (e : HttpxException)
  | resp (r : Response)
  deriving DecidableEq, Repr

/-- The external world: the underlying HTTP client as a script indexed
by call number, and the token endpoint as a script indexed by fetch
number. -/
structure World where
  client : Nat → CallResult
  tokenEndpoint : Nat → TokenEndpointResponse

/-- Observable machine state threaded through the model: the auth cache
plus instrumentation the claims talk about (how many client calls and
token fetches happened, and the headers of every issued client call). -/
structure St where
  auth : AuthState
  ncalls : Nat := 0
  nfetches : Nat := 0
  calls : List (List (String × String)) := []
  deriving DecidableEq, Repr

/-- Modelled from the spec: `SiigoAuth._fetch`, the unconditional
credential exchange (§4.2 steps 3–5).  POSTs to the token endpoint; on a
non-2xx status fails with a response error carrying the actual status
and body text; on 2xx with no `access_token` fails with a response
error of synthetic status 500 and message "No access_token in response"
and caches nothing; otherwise caches the token and, when `expires_in`
is present, `expiresAt = now + expires_in`, else no expiry. -/
def SiigoAuth.fetch (w : World) (now : Nat) (st : St) :
    Except ApiError String × St :=
  let r := w.tokenEndpoint st.nfetches
  let st1 := { st with nfetches := st.nfetches + 1 }
  if 200 ≤ r.status ∧ r.status < 300 then
    match r.accessToken with
    | none => (.error (.response 500 "No access_token in response"), st1)
    | some tok =>
        (.ok tok,
          { st1 with
            auth := { st1.auth with
                      tokenVal := some tok
                      expTs := r.expiresIn.map (now + ·) } })
  else (.error (.response r.status r.text), st1)

/-- Modelled from the spec: `SiigoAuth.token` (`getToken()`, §4.2).
1. missing credentials (the tests require `username`, `access_key` and
`partner_id` all present) fail with a configuration error before any
network call; 2. a cached token with no expiry, or with `now <
expiresAt` strictly, is returned unchanged with no network call;
3. otherwise one credential exchange via `SiigoAuth.fetch`. -/
def SiigoAuth.token (w : World) (now : Nat) (st : St) :
    Except ApiError String × St :=
  if st.auth.cfg.username = none ∨ st.auth.cfg.access_key = none ∨
      st.auth.cfg.partner_id = none then
    (.error (.config "username, access_key and partner_id are required"), st)
  else
    match st.auth.tokenVal, st.auth.expTs with
    | some t, none => (.ok t, st)
    | some t, some e =>
        if now < e then (.ok t, st) else SiigoAuth.fetch w now st
    | none, _ => SiigoAuth.fetch w now st

/-! ## Transport (`SyncTransport`, from `_http.py`) -/

/-- Embeds `SyncTransport._headers`: `base = {"Partner-Id":
cfg.partner_id or ""}` then `{**base, "Authorization": "Bearer " +
tok}`. -/
def SyncTransport.headers (partnerId : Option String) (tok : String) :
    List (String × String) :=
  dictInsert [("Partner-Id", partnerId.getD "")] "Authorization"
    ("Bearer " ++ tok)

/-- Embeds the `except` clauses of `SyncTransport.request`:
`except httpx.ConnectTimeout` → `APITimeoutError`, then
`except httpx.HTTPError` → `APIConnectionError`.  Every `httpx`
exception the model carries is an `httpx.HTTPError` subclass, so every
non-timeout case lands in the second clause. -/
def SyncTransport.convertExn : HttpxException → ApiError
  | .connectTimeout m => .timeout m
  | .connectError m => .connection m
  | .readError m => .connection m
  | .otherHTTP m => .connection m

/-- Embeds the final classification of `SyncTransport.request`:
`if resp.status_code >= 400: raise APIResponseError(status, text)` else
return the response unchanged. -/
def SyncTransport.classify (r : Response) : Except PyExn Response :=
  if 400 ≤ r.status then .error (.api (.response r.status r.text))
  else .ok r

/-- Embeds the `try`-block body of `SyncTransport.request` (one
decorated attempt).  `callerHeaders` is the result of the first
`kwargs.pop("headers", {})`; since `pop` removes the key, the second
`kwargs.pop("headers", {})` on the 401-retry line yields `{}`, which is
modelled by merging the empty list there.  `_headers()` calls
`self.auth.token()`; an `ApiError` it raises is not an `httpx` error,
so the `except` clauses do not catch it and it propagates. -/
def SyncTransport.requestBody (w : World) (now : Nat) (st : St)
    (callerHeaders : List (String × String)) :
    Except PyExn Response × St :=
  match SiigoAuth.token w now st with
  | (.error e, st1) => (.error (.api e), st1)
  | (.ok tok, st1) =>
    let hdrs := dictMerge
      (SyncTransport.headers st1.auth.cfg.partner_id tok) callerHeaders
    let st2 := { st1 with
                 ncalls := st1.ncalls + 1, calls := st1.calls ++ [hdrs] }
    match w.client st1.ncalls with
    | .exn e => (.error (.api (SyncTransport.convertExn e)), st2)
    | .resp r =>
      if r.status == 401 then
        match SiigoAuth.fetch w now st2 with
        | (.error e, st3) => (.error (.api e), st3)
        | (.ok _, st3) =>
          match SiigoAuth.token w now st3 with
          | (.error e, st4) => (.error (.api e), st4)
          | (.ok tok2, st4) =>
            let hdrs2 := dictMerge
              (SyncTransport.headers st4.auth.cfg.partner_id tok2) []
            let st5 := { st4 with
                         ncalls := st4.ncalls + 1
                         calls := st4.calls ++ [hdrs2] }
            match w.client st4.ncalls with
            | .exn e => (.error (.api (SyncTransport.convertExn e)), st5)
            | .resp r2 => (SyncTransport.classify r2, st5)
      else (SyncTransport.classify r, st2)

/-- Embeds the tenacity `@retry(...)` wrapper around the body:
`retriesLeft` further attempts may follow the current one
(`stop_after_attempt(3)` is `retriesLeft = 2` at the first attempt); a
raised exception triggers a further attempt exactly when
`isConnectOrReadError` holds of it.  Tenacity re-invokes the function
with the same mutated `kwargs`, whose `headers` key was popped by the
first attempt, hence the recursive call passes `none`. -/
def SyncTransport.retryLoop (w : World) (now : Nat) :
    Nat → St → Option (List (String × String)) →
    Except PyExn Response × St
  | 0, st, callerHeaders => SyncTransport.requestBody w now st (callerHeaders.getD [])
  | n + 1, st, callerHeaders =>
    match SyncTransport.requestBody w now st (callerHeaders.getD []) with
    | (.error e, st1) =>
        if isConnectOrReadError e then SyncTransport.retryLoop w now n st1 none
        else (.error e, st1)
    | (.ok r, st1) => (.ok r, st1)

/-- Embeds `SyncTransport.request(method, url, **kwargs)`: the tenacity
wrapper at 3 total attempts around the body.  `callerHeaders` is
`kwargs["headers"]` if the caller supplied one. -/
def SyncTransport.request (w : World) (now : Nat) (st : St)
    (callerHeaders : Option (List (String × String))) :
    Except PyExn Response × St :=
  SyncTransport.retryLoop w now 2 st callerHeaders

/-! ## Concrete fixtures shared by several theorems -/

/-- The `mock_config` test fixture: all three credentials present. -/
def cfgTest : Config :=
  { base_url := "https://api.test.siigo.com"
    username := some "test_user"
    access_key := some "test_key"
    partner_id := some "test_partner" }

/-- A transport state holding a valid non-expiring cached token, as the
transport tests arrange by mocking `SiigoAuth.token`. -/
def stCached (tok : String) : St :=
  { auth := { cfg := cfgTest, tokenVal := some tok, expTs := none } }

/-- A token-endpoint script that always answers 200 with a fresh
token and no expiry. -/
def endpointOK (tok : String) : Nat → TokenEndpointResponse :=
  fun _ => { status := 200, accessToken := some tok, expiresIn := none, text := "" }

/-- World for claim C1: every underlying HTTP call raises
`httpx.ConnectError("Connection reset")` (a simulated connect-reset). -/
def worldC1 : World :=
  { client := fun _ => .exn (.connectError "Connection reset")
    tokenEndpoint := endpointOK "unused" }

/-- Claim C1 (code evaluation): with a valid cached token and an
underlying client that raises `httpx.ConnectError` on every call,
`request()` makes exactly ONE HTTP attempt and immediately raises
`APIConnectionError` — the `except httpx.HTTPError` clause converts the
`ConnectError` before tenacity's retry predicate can match it, so the
claimed 3-attempt retry with backoff never happens. -/
theorem C1_single_attempt_on_connect_reset :
    SyncTransport.request worldC1 0 (stCached "test_token_12345") none =
      (.error (.api (.connection "Connection reset")),
        { stCached "test_token_12345" with
          ncalls := 1
          calls := [[("Partner-Id", "test_partner"),
                     ("Authorization", "Bearer test_token_12345")]] }) := by
  rfl

/-- World for claim C2: the first underlying HTTP call answers 401, the
second answers 200; the token endpoint serves a fresh token for the
forced refetch. -/
def worldC2 : World :=
  { client := fun n =>
      if n = 0 then .resp { status := 401, text := "unauthorized" }
      else .resp { status := 200, text := "ok" }
    tokenEndpoint := endpointOK "new_token" }

/-- Claim C2 (code evaluation): calling `request()` with caller header
`X-Custom-Header: v` when the first response is 401: the first attempt
does carry the merged caller header, but the 401-driven retry attempt
does NOT — its headers are only `Partner-Id` and the rebuilt
`Authorization` — because the first `kwargs.pop("headers", {})` removed
the key, so the second pop on the retry line yields `{}`. -/
theorem C2_retry_attempt_drops_caller_headers :
    (SyncTransport.request worldC2 0 (stCached "old_token")
        (some [("X-Custom-Header", "v")])).2.calls =
      [[("Partner-Id", "test_partner"),
        ("Authorization", "Bearer old_token"),
        ("X-Custom-Header", "v")],
       [("Partner-Id", "test_partner"),
        ("Authorization", "Bearer new_token")]] := by
  rfl

/-- A transport state with all credentials configured, partner id `p`,
and a valid non-expiring cached token `t`, with fresh instrumentation
counters (each `request()` call of interest is observed from here). -/
def stValid (p t : String) : St :=
  { auth := { cfg := { username := some "u", access_key := some "k",
                       partner_id := some p }
              tokenVal := some t, expTs := none } }

/-- Claim C4: if the underlying call raises `httpx.ConnectTimeout`, the
whole `request()` fails immediately as `APITimeoutError` with exactly
one HTTP attempt (zero retries) and no token fetch. -/
theorem C4_connect_timeout_fails_immediately (w : World) (now : Nat)
    (p t m : String) (hs : Option (List (String × String)))
    (hclient : w.client 0 = .exn (.connectTimeout m)) :
    SyncTransport.request w now (stValid p t) hs =
      (.error (.api (.timeout m)),
       { stValid p t with
         ncalls := 1
         calls := [dictMerge (SyncTransport.headers (some p) t)
                     (hs.getD [])] }) := by
  simp [SyncTransport.request, SyncTransport.retryLoop,
    SyncTransport.requestBody, SiigoAuth.token, stValid, hclient,
    SyncTransport.convertExn, isConnectOrReadError]

/-- Claim C4 witness: the theorem applied at a concrete connect-timeout
world. -/
theorem C4_connect_timeout_fails_immediately_witness :
    SyncTransport.request
        { client := fun _ => .exn (.connectTimeout "Connection timeout")
          tokenEndpoint := endpointOK "unused" }
        0 (stValid "test_partner" "test_token_12345") none =
      (.error (.api (.timeout "Connection timeout")),
       { stValid "test_partner" "test_token_12345" with
         ncalls := 1
         calls := [[("Partner-Id", "test_partner"),
                    ("Authorization", "Bearer test_token_12345")]] }) := by
  exact (C4_connect_timeout_fails_immediately _ 0 _ _ _ none rfl).trans (by rfl)

/-- Claim C5: a final response (first response, not a 401) with status
≥ 400 raises `APIResponseError` carrying exactly that status and the
raw body text; with status < 400 the response object is returned
unchanged.  Exactly one HTTP attempt and no token fetch happen. -/
theorem C5_response_classification (w : World) (now : Nat)
    (p t : String) (hs : Option (List (String × String))) (r : Response)
    (h401 : r.status ≠ 401) (hclient : w.client 0 = .resp r) :
    SyncTransport.request w now (stValid p t) hs =
      ((if 400 ≤ r.status then .error (.api (.response r.status r.text))
        else .ok r),
       { stValid p t with
         ncalls := 1
         calls := [dictMerge (SyncTransport.headers (some p) t)
                     (hs.getD [])] }) := by
  by_cases h4 : 400 ≤ r.status <;>
    simp [SyncTransport.request, SyncTransport.retryLoop,
      SyncTransport.requestBody, SiigoAuth.token, stValid, hclient, h401,
      SyncTransport.classify, isConnectOrReadError, h4]

/-- Claim C5 witness: status 399 returns the response unchanged; status
400 raises `APIResponseError(400, "Bad Request")`. -/
theorem C5_response_classification_witness :
    (SyncTransport.request
        { client := fun _ => .resp { status := 399, text := "almost" }
          tokenEndpoint := endpointOK "unused" }
        0 (stValid "test_partner" "tok") none).1 =
      .ok { status := 399, text := "almost" } ∧
    (SyncTransport.request
        { client := fun _ => .resp { status := 400, text := "Bad Request" }
          tokenEndpoint := endpointOK "unused" }
        0 (stValid "test_partner" "tok") none).1 =
      .error (.api (.response 400 "Bad Request")) := by
  constructor
  · have h := C5_response_classification
      { client := fun _ => .resp { status := 399, text := "almost" }
        tokenEndpoint := endpointOK "unused" }
      0 "test_partner" "tok" none { status := 399, text := "almost" }
      (by decide) rfl
    rw [h]
    rfl
  · have h := C5_response_classification
      { client := fun _ => .resp { status := 400, text := "Bad Request" }
        tokenEndpoint := endpointOK "unused" }
      0 "test_partner" "tok" none { status := 400, text := "Bad Request" }
      (by decide) rfl
    rw [h]
    rfl

/-- Claim C3: when the first completed response has status 401 (and the
forced refetch succeeds, yielding fresh token `tNew` with a positive or
absent expiry), `request()` performs exactly one forced token refetch
(`nfetches = 1`) and exactly one re-issued HTTP call (`ncalls = 2`);
the retried call's headers are rebuilt with the new token (its
`Authorization` reads `Bearer tNew`); and the second response `r2` is
classified by the plain `≥ 400` rule with no further 401 handling — in
particular a second 401 yields `APIResponseError` with status 401. -/
theorem C3_401_refreshes_once_and_retries_once (w : World) (now : Nat)
    (p t tNew txt : String) (ei : Option Nat)
    (hs : Option (List (String × String))) (r1 r2 : Response)
    (h401 : r1.status = 401)
    (hclient0 : w.client 0 = .resp r1) (hclient1 : w.client 1 = .resp r2)
    (hep : w.tokenEndpoint 0 =
      { status := 200, accessToken := some tNew, expiresIn := ei, text := txt })
    (hei : ei = none ∨ ∃ e, ei = some e ∧ 0 < e) :
    SyncTransport.request w now (stValid p t) hs =
      ((if 400 ≤ r2.status then .error (.api (.response r2.status r2.text))
        else .ok r2),
       { auth := { cfg := (stValid p t).auth.cfg
                   tokenVal := some tNew
                   expTs := ei.map (now + ·) }
         ncalls := 2
         nfetches := 1
         calls := [dictMerge (SyncTransport.headers (some p) t) (hs.getD []),
                   SyncTransport.headers (some p) tNew] }) := by
  rcases hei with hei | ⟨e, hei, he⟩ <;> subst hei
  · by_cases h4 : 400 ≤ r2.status <;>
      simp [SyncTransport.request, SyncTransport.retryLoop,
        SyncTransport.requestBody, SiigoAuth.token, SiigoAuth.fetch,
        stValid, hclient0, hclient1, hep, h401, SyncTransport.classify,
        isConnectOrReadError, h4, dictMerge]
  · have hlt : now < now + e := Nat.lt_add_of_pos_right he
    by_cases h4 : 400 ≤ r2.status <;>
      simp [SyncTransport.request, SyncTransport.retryLoop,
        SyncTransport.requestBody, SiigoAuth.token, SiigoAuth.fetch,
        stValid, hclient0, hclient1, hep, h401, SyncTransport.classify,
        isConnectOrReadError, h4, dictMerge, hlt]

/-- Claim C3 witness: concrete 401-then-401 run — the forced refetch
happens once, the retried call carries `Bearer new_token`, and the
second 401 is classified as `APIResponseError(401, ...)` instead of
looping. -/
theorem C3_401_refreshes_once_and_retries_once_witness :
    SyncTransport.request
        { client := fun n =>
            if n = 0 then .resp { status := 401, text := "unauthorized" }
            else .resp { status := 401, text := "still unauthorized" }
          tokenEndpoint := endpointOK "new_token" }
        0 (stValid "test_partner" "old_token") none =
      (.error (.api (.response 401 "still unauthorized")),
       { auth := { cfg := (stValid "test_partner" "old_token").auth.cfg
                   tokenVal := some "new_token"
                   expTs := none }
         ncalls := 2
         nfetches := 1
         calls := [[("Partner-Id", "test_partner"),
                    ("Authorization", "Bearer old_token")],
                   [("Partner-Id", "test_partner"),
                    ("Authorization", "Bearer new_token")]] }) := by
  have h := C3_401_refreshes_once_and_retries_once
    { client := fun n =>
        if n = 0 then .resp { status := 401, text := "unauthorized" }
        else .resp { status := 401, text := "still unauthorized" }
      tokenEndpoint := endpointOK "new_token" }
    0 "test_partner" "old_token" "new_token" "" none none
    { status := 401, text := "unauthorized" }
    { status := 401, text := "still unauthorized" }
    rfl rfl rfl rfl (Or.inl rfl)
  rw [h]
  rfl

/-- Claim C6: a token fetch answered 200 with a JSON body lacking
`access_token` makes `getToken()` fail with `APIResponseError` of
synthetic status 500 and message "No access_token in response", after
exactly one network call, and caches no token (the cache state is
unchanged apart from the fetch counter). -/
theorem C6_missing_access_token_fails_500 (w : World) (now : Nat)
    (st : St) (u k p txt : String) (ei : Option Nat)
    (hu : st.auth.cfg.username = some u)
    (hk : st.auth.cfg.access_key = some k)
    (hp : st.auth.cfg.partner_id = some p)
    (htok : st.auth.tokenVal = none)
    (hep : w.tokenEndpoint st.nfetches =
      { status := 200, accessToken := none, expiresIn := ei, text := txt }) :
    SiigoAuth.token w now st =
      (.error (.response 500 "No access_token in response"),
       { st with nfetches := st.nfetches + 1 }) := by
  simp [SiigoAuth.token, SiigoAuth.fetch, hu, hk, hp, htok, hep]

/-- Claim C6 witness: the theorem applied at a concrete endpoint reply
`{"token_type": "Bearer"}` (status 200, no `access_token`). -/
theorem C6_missing_access_token_fails_500_witness :
    SiigoAuth.token
        { client := fun _ => .resp { status := 200, text := "" }
          tokenEndpoint := fun _ =>
            { status := 200, accessToken := none, expiresIn := none,
              text := "token_type only" } }
        0 { auth := { cfg := cfgTest } } =
      (.error (.response 500 "No access_token in response"),
       { auth := { cfg := cfgTest }, nfetches := 1 }) := by
  exact (C6_missing_access_token_fails_500 _ 0 _ "test_user" "test_key"
    "test_partner" "token_type only" none rfl rfl rfl rfl rfl).trans (by rfl)

/-- Claim C7: with `username` and `access_key` both unset, `getToken()`
fails immediately with the configuration error and leaves the state
untouched — in particular `nfetches` is unchanged, i.e. zero network
calls are made. -/
theorem C7_missing_credentials_no_network (w : World) (now : Nat)
    (st : St)
    (hu : st.auth.cfg.username = none)
    (hk : st.auth.cfg.access_key = none) :
    SiigoAuth.token w now st =
      (.error (.config "username, access_key and partner_id are required"),
       st) := by
  simp [SiigoAuth.token, hu, hk]

/-- Claim C7 witness: the theorem applied at the default (all-`None`)
configuration. -/
theorem C7_missing_credentials_no_network_witness :
    SiigoAuth.token
        { client := fun _ => .resp { status := 200, text := "" }
          tokenEndpoint := endpointOK "unreached" }
        0 { auth := { cfg := {} } } =
      (.error (.config "username, access_key and partner_id are required"),
       { auth := { cfg := {} } }) :=
  C7_missing_credentials_no_network _ 0 _ rfl rfl

/-- Claim C8: a cached token with no expiry, or whose expiry lies
strictly in the future, is returned unchanged by `getToken()` with the
state untouched — no network call happens. -/
theorem C8_cached_token_reused_without_network (w : World) (now : Nat)
    (st : St) (u k p t : String)
    (hu : st.auth.cfg.username = some u)
    (hk : st.auth.cfg.access_key = some k)
    (hp : st.auth.cfg.partner_id = some p)
    (htok : st.auth.tokenVal = some t)
    (hval : st.auth.expTs = none ∨ ∃ e, st.auth.expTs = some e ∧ now < e) :
    SiigoAuth.token w now st = (.ok t, st) := by
  rcases hval with hval | ⟨e, hval, he⟩
  · simp [SiigoAuth.token, hu, hk, hp, htok, hval]
  · simp [SiigoAuth.token, hu, hk, hp, htok, hval, he]

/-- A world whose token endpoint always answers 200 with token `tok`
and `expires_in = 3600`. -/
def world3600 : World :=
  { client := fun _ => .resp { status := 200, text := "" }
    tokenEndpoint := fun _ =>
      { status := 200, accessToken := some "tok", expiresIn := some 3600,
        text := "" } }

/-- Claim C8 witness: starting from an empty cache, the first
`getToken()` call (at time 100) performs one credential exchange and
caches `tok` until 3700; a second call at time 200 (within the 3600 s
window) returns the same token with the state — in particular the fetch
counter — unchanged, so the two calls triggered exactly one exchange. -/
theorem C8_cached_token_reused_without_network_witness :
    SiigoAuth.token world3600 100 { auth := { cfg := cfgTest } } =
      (.ok "tok",
       { auth := { cfg := cfgTest, tokenVal := some "tok",
                   expTs := some 3700 }
         nfetches := 1 }) ∧
    SiigoAuth.token world3600 200
        { auth := { cfg := cfgTest, tokenVal := some "tok",
                    expTs := some 3700 }
          nfetches := 1 } =
      (.ok "tok",
       { auth := { cfg := cfgTest, tokenVal := some "tok",
                   expTs := some 3700 }
         nfetches := 1 }) :=
  ⟨rfl,
   C8_cached_token_reused_without_network world3600 200 _ "test_user"
     "test_key" "test_partner" "tok" rfl rfl rfl rfl
     (Or.inr ⟨3700, rfl, by decide⟩)⟩

/-! ## JSON values and Python truthiness (for `customers.py`) -/

/-- A JSON value as `httpx.Response.json()` hands it to Python;
`null` also stands for Python `None` (e.g. a failed `dict.get`). -/
inductive Json where
  | null
  | bool (b : Bool)
  | num (n : Int)
  | str (s : String)
  | arr (elems : List Json)
  | obj (fields : List (String × Json))

/-- Python truthiness of a JSON value: `None`, `False`, `0`, `""`,
`[]` and `{}` are falsy, everything else is truthy. -/
def jsonTruthy : Json → Bool
  | .null => false
  | .bool b => b
  | .num n => n != 0
  | .str s => s != ""
  | .arr xs => !xs.isEmpty
  | .obj fs => !fs.isEmpty

/-- Python `data.get(k)` on a dict: the value at the first matching
key, else `None`; on a non-dict the resources never call it (modelled
as `None`). -/
def pyGet (j : Json) (k : String) : Json :=
  match j with
  | .obj fs => ((fs.find? (fun p => p.1 == k)).map (·.2)).getD .null
  | _ => .null

/-- Python `a or b`: `a` if truthy, else `b`. -/
def pyOr (a b : Json) : Json := if jsonTruthy a then a else b

/-- Embeds the item-selection expression of `CustomersResource.list`
(`customers.py`): `items = data.get("results") or data.get("data") or
[]`.  The selected value is what `TypeAdapter(list[Customer])` then
validates; an empty list yields an empty iterator. -/
def CustomersResource.listItems (data : Json) : Json :=
  pyOr (pyOr (pyGet data "results") (pyGet data "data")) (.arr [])

/-- Claim C9: `CustomersResource.list` takes its items from the
`results` key when that value is truthy, else from the `data` key when
that value is truthy, else the empty list — so a body with neither key
selects the empty list (an empty iterator, not an error). -/
theorem C9_list_fallback_parsing (data : Json) :
    (jsonTruthy (pyGet data "results") = true →
      CustomersResource.listItems data = pyGet data "results") ∧
    (jsonTruthy (pyGet data "results") = false →
      jsonTruthy (pyGet data "data") = true →
      CustomersResource.listItems data = pyGet data "data") ∧
    (jsonTruthy (pyGet data "results") = false →
      jsonTruthy (pyGet data "data") = false →
      CustomersResource.listItems data = .arr []) := by
  refine ⟨fun h1 => ?_, fun h1 h2 => ?_, fun h1 h2 => ?_⟩ <;>
    simp [CustomersResource.listItems, pyOr, h1]
  · simp [h2]
  · simp [h2]

/-- Claim C9 witness: a body whose `results` value is `null` and whose
`data` key holds one element — the theorem's middle case applied there —
together with its last case at a body holding neither key. -/
theorem C9_list_fallback_parsing_witness :
    CustomersResource.listItems
        (.obj [("results", .null), ("data", .arr [.str "c1"])]) =
      .arr [.str "c1"] ∧
    CustomersResource.listItems (.obj [("total", .num 0)]) = .arr [] := by
  constructor
  · exact (C9_list_fallback_parsing
      (.obj [("results", .null), ("data", .arr [.str "c1"])])).2.1 rfl rfl
  · exact (C9_list_fallback_parsing (.obj [("total", .num 0)])).2.2 rfl rfl

/-! ## Webhooks (`resources/webhooks.py`) -/

/-- The HTTP verbs the webhook resource issues. -/
inductive Method where
  | GET
  | POST
  | DELETE
  deriving DecidableEq, Repr

/-- One request issued through the transport by a resource method:
verb, URL, and the JSON payload for a POST (if any). -/
structure IssuedRequest where
  method : Method
  url : String
  payload : Option Json := none

/-- Embeds `WebhookResource.webhook_type_map`. -/
def webhook_type_map : List (String × String) :=
  [("PRODUCTS_CREATE", "public.siigoapi.products.create"),
   ("PRODUCTS_UPDATE", "public.siigoapi.products.update"),
   ("STOCK_UPDATE", "public.siigoapi.products.stock.update")]

/-- A webhook entry of the GET response, already schema-valid (the
pydantic `TypeAdapter(Webhook)` validation is modelled as the identity
on well-typed records; only `topic` is inspected by the lookup). -/
structure Webhook where
  topic : String
  url : String
  active : Bool
  deriving DecidableEq, Repr

/-- Python exceptions the webhook resource can raise itself. -/
inductive WebhookErr where
  | valueError (msg : String)
  deriving DecidableEq, Repr

/-- Embeds `WebhookResource.get_by_type` for a `webhook_type` present
in the map: one GET of `<base>/v1/webhooks`, then the first entry of
the response whose `topic` matches the mapped topic (or `None`). -/
def WebhookResource.get_by_type (base : String) (topic : String)
    (data : List Webhook) : Option Webhook × List IssuedRequest :=
  (data.find? (fun wh => wh.topic == topic),
   [{ method := .GET, url := base ++ "/v1/webhooks" }])

/-- Python `s.startswith(pre)`, computed on the character lists. -/
def pyStartsWith (s pre : String) : Bool :=
  pre.data.isPrefixOf s.data

/-- Embeds `WebhookResource.upsert(webhook_type, url)`: rejects an
unmapped `webhook_type` and a URL that is empty or does not start with
"http" as `ValueError`s; otherwise looks the webhook up via
`get_by_type` — and then ends.  The function body has no `return`
statement after the lookup, so Python returns `None`. -/
def WebhookResource.upsert (base : String) (webhook_type url : String)
    (data : List Webhook) :
    Except WebhookErr (Option Webhook) × List IssuedRequest :=
  if (webhook_type_map.find? (fun p => p.1 == webhook_type)).isNone then
    (.error (.valueError ("Invalid webhook type: " ++ webhook_type)), [])
  else if url == "" || !(pyStartsWith url "http") then
    (.error (.valueError
      "Invalid URL. It must start with 'http://' or 'https://'"), [])
  else
    match webhook_type_map.find? (fun p => p.1 == webhook_type) with
    | none => (.error (.valueError ("Invalid webhook type: " ++ webhook_type)), [])
    | some p =>
      let (_, reqs) := WebhookResource.get_by_type base p.2 data
      (.ok none, reqs)

/-- Claim C10: for every `webhook_type` present in `webhook_type_map`
and every URL starting with "http", `upsert` returns `None` (despite
its `-> Webhook` annotation) and issues exactly one GET (the
`get_by_type` lookup) — never a create (POST) or update request. -/
theorem C10_upsert_returns_none_one_get (base webhook_type url : String)
    (data : List Webhook)
    (hmap : (webhook_type_map.find? (fun p => p.1 == webhook_type)).isSome)
    (hurl : pyStartsWith url "http") :
    WebhookResource.upsert base webhook_type url data =
      (.ok none, [{ method := .GET, url := base ++ "/v1/webhooks" }]) := by
  have hne : url ≠ "" := by
    intro h
    rw [h] at hurl
    simp [pyStartsWith, List.isPrefixOf] at hurl
  obtain ⟨p, hp⟩ := Option.isSome_iff_exists.mp hmap
  simp [WebhookResource.upsert, WebhookResource.get_by_type, hp, hurl, hne]

/-- Claim C10 witness: the theorem applied at
`upsert("PRODUCTS_CREATE", "https://example.com/hook")` against an
empty webhook list. -/
theorem C10_upsert_returns_none_one_get_witness :
    WebhookResource.upsert "https://api.test.siigo.com" "PRODUCTS_CREATE"
        "https://example.com/hook" [] =
      (.ok none,
       [{ method := .GET,
          url := "https://api.test.siigo.com" ++ "/v1/webhooks" }]) :=
  C10_upsert_returns_none_one_get "https://api.test.siigo.com"
    "PRODUCTS_CREATE" "https://example.com/hook" [] (by decide) (by decide)
